import Mathlib

/-
Verification of the capture/analysis orchestration loop of the
browser-based visual analyzer (src/App.tsx and the Gemini service layer).

The embedding models:
  - the JSON values the service layer manipulates (JSON.parse results,
    JavaScript field access and truthiness), used by `analyzeMotion` and
    `detectObjectsInFrame` (src services/geminiService.ts, lines 350-414);
  - the React component state of App.tsx as an explicit `AppState` record,
    together with an explicit pool of armed timers and live media streams,
    so that clearInterval/clearTimeout/setInterval/setTimeout and
    MediaStream track lifecycle become provable state facts;
  - each handler of App.tsx (startCamera, stopCamera, handleAnalyzeMotion,
    runLiveDetection, toggleLiveDetection, the mode buttons) as a state
    transformer over `AppState`, parameterised by an environment record
    carrying the outcomes of the suspension points (camera acquisition,
    frame capture, backend round trips, page visibility).
Handlers additionally emit a trace of externally visible events (frame
captures, real-time waits, backend requests) so that ordering and
no-op claims are statable.
-/

namespace VisualAnalyzer

/-- Result shape of one-shot motion analysis, from types.ts (AnalysisResult). -/
structure AnalysisResult where
  objectName : String
  movementDescription : String
  confidence : ℚ
  deriving DecidableEq, Repr

/-- Normalized bounding box, from types.ts (BoundingBox). -/
structure BoundingBox where
  x_min : ℚ
  y_min : ℚ
  x_max : ℚ
  y_max : ℚ
  deriving DecidableEq, Repr

/-- A detected object, from types.ts (DetectedObject). -/
structure DetectedObject where
  objectName : String
  boundingBox : BoundingBox
  deriving DecidableEq, Repr

/-- JavaScript values produced by JSON.parse, plus `undef` for the result of
reading an absent property. -/
inductive Json where
  | null
  | undef
  | bool (b : Bool)
  | num (q : ℚ)
  | str (s : String)
  | arr (elems : List Json)
  | obj (fields : List (String × Json))

/-- Body of a generateContent response: either text that is not valid JSON
(JSON.parse throws) or the parsed JSON value. -/
inductive ResponseText where
  | notJson
  | json (j : Json)

/-- JSON.parse on a response body: fails on text that is not valid JSON. -/
def jsonParse : ResponseText → Except String Json
  | ResponseText.notJson => Except.error "SyntaxError: unexpected token in JSON"
  | ResponseText.json j => Except.ok j

/-- JavaScript truthiness: null, undefined, false, 0 and the empty string are
falsy, everything else (including the empty array and empty object) is truthy. -/
def jsTruthy : Json → Bool
  | Json.null => false
  | Json.undef => false
  | Json.bool b => b
  | Json.num q => decide (q ≠ 0)
  | Json.str s => decide (s ≠ "")
  | Json.arr _ => true
  | Json.obj _ => true

/-- JavaScript property read `v.name`: throws a TypeError on null/undefined,
yields undefined for a missing property or a non-object base value. -/
def jsGetField : Json → String → Except String Json
  | Json.null, _ => Except.error "TypeError: cannot read properties of null"
  | Json.undef, _ => Except.error "TypeError: cannot read properties of undefined"
  | Json.obj fields, name =>
      Except.ok (match fields.lookup name with
        | some v => v
        | none => Json.undef)
  | _, _ => Except.ok Json.undef

/-- Embedding of the exported service function analyzeMotion
(geminiService.ts lines 350-382).  The argument is the outcome of the
generateContent round trip (transport error or response text).  The source
returns `JSON.parse(response.text) as AnalysisResult`: the cast performs no
shape validation, so any parsed JSON value is returned unchanged; only a
transport failure or a JSON.parse failure reaches the catch block, which
rewraps the message. -/
def analyzeMotion (call : Except String ResponseText) : Except String Json :=
  match call with
  | Except.error msg => Except.error ("Failed to analyze motion with Gemini API: " ++ msg)
  | Except.ok text =>
    match jsonParse text with
    | Except.error msg => Except.error ("Failed to analyze motion with Gemini API: " ++ msg)
    | Except.ok j => Except.ok j

/-- Embedding of the exported service function detectObjectsInFrame
(geminiService.ts lines 385-414).  The source computes
`result.detections || []` on the parsed JSON and casts it without element
validation; a thrown TypeError (property read on null) lands in the catch
block and is rewrapped. -/
def detectObjectsInFrame (call : Except String ResponseText) : Except String Json :=
  match call with
  | Except.error msg => Except.error ("Failed to detect objects with Gemini API: " ++ msg)
  | Except.ok text =>
    match jsonParse text with
    | Except.error msg => Except.error ("Failed to detect objects with Gemini API: " ++ msg)
    | Except.ok j =>
      match jsGetField j "detections" with
      | Except.error msg => Except.error ("Failed to detect objects with Gemini API: " ++ msg)
      | Except.ok d => Except.ok (if jsTruthy d then d else Json.arr [])

/-- JavaScript Math.round: round half toward positive infinity. -/
def jsMathRound (q : ℚ) : ℤ := ⌊q + 1 / 2⌋

/-- Confidence rendering of App.tsx line 261:
`Math.round(analysisResult.confidence * 100)`. -/
def displayedConfidencePct (c : ℚ) : ℤ := jsMathRound (c * 100)

/-- UI mode of the App component. -/
inductive Mode where
  | motion
  | live
  deriving DecidableEq, Repr

/-- Kind of an armed browser timer. -/
inductive TimerKind where
  | interval
  | timeout
  deriving DecidableEq, Repr

/-- An armed browser timer: its id, kind and delay in milliseconds. -/
structure Timer where
  id : Nat
  kind : TimerKind
  delayMs : Nat
  deriving DecidableEq, Repr

/-- Whether a timer is a repeating interval. -/
def Timer.isInterval (t : Timer) : Bool :=
  match t.kind with
  | TimerKind.interval => true
  | TimerKind.timeout => false

/-- Whether a timer is a one-shot timeout. -/
def Timer.isTimeout (t : Timer) : Bool :=
  match t.kind with
  | TimerKind.interval => false
  | TimerKind.timeout => true

/-- State of the App component (App.tsx lines 13-25), extended with an
explicit pool of armed timers and of live media streams so that timer and
session lifecycle claims are statable.  `armedTimers` holds every timer that
has been set and not yet cleared; `liveStreams` holds the ids of MediaStreams
whose tracks have been started and not stopped; `attachedStream` is
`videoRef.current.srcObject`. -/
structure AppState where
  mode : Mode
  isCameraOn : Bool
  isAnalyzing : Bool
  isDetecting : Bool
  analysisResult : Option AnalysisResult
  detections : List DetectedObject
  transientMessage : Option String
  error : Option String
  detectionIntervalRef : Option Nat
  transientMessageTimeoutRef : Option Nat
  armedTimers : List Timer
  nextTimerId : Nat
  liveStreams : List Nat
  attachedStream : Option Nat
  nextStreamId : Nat
  deriving DecidableEq, Repr

/-- clearInterval / clearTimeout: removes the timer with the given id from
the armed pool. -/
def clearTimer (s : AppState) (i : Nat) : AppState :=
  { s with armedTimers := s.armedTimers.filter (fun t => t.id != i) }

/-- window.setInterval / window.setTimeout: arms a fresh timer and returns
its id. -/
def setTimer (s : AppState) (k : TimerKind) (d : Nat) : AppState × Nat :=
  ({ s with armedTimers := s.armedTimers ++ [⟨s.nextTimerId, k, d⟩],
            nextTimerId := s.nextTimerId + 1 },
   s.nextTimerId)

/-- clearState (App.tsx lines 35-40): resets error, result, detections and
the transient message. -/
def clearState (s : AppState) : AppState :=
  { s with error := none, analysisResult := none, detections := [],
           transientMessage := none }

/-- Camera error message of App.tsx line 58. -/
def cameraErrorMsg : String :=
  "Could not access the camera. Please ensure permissions are granted and try again."

/-- startCamera (App.tsx lines 42-61).  `mediaOk` is the outcome of the
getUserMedia round trip.  On success a fresh stream with live tracks is
created and attached as `videoRef.current.srcObject`; note that the source
overwrites any previously attached stream without stopping its tracks.  On
failure an error is stored and the camera stays off. -/
def startCamera (s : AppState) (mediaOk : Bool) : AppState :=
  let s0 := clearState s
  if mediaOk then
    let sid := s0.nextStreamId
    let s1 := { s0 with liveStreams := s0.liveStreams ++ [sid], nextStreamId := sid + 1 }
    { s1 with attachedStream := some sid, isCameraOn := true }
  else
    { s0 with error := some cameraErrorMsg, isCameraOn := false }

/-- stopCamera (App.tsx lines 63-76): clears the detection interval if armed,
resets detecting, stops all tracks of the attached stream and detaches it,
turns the camera off and clears transient state.  The transient-message
timeout is not touched here. -/
def stopCamera (s : AppState) : AppState :=
  let s1 :=
    match s.detectionIntervalRef with
    | some i => { clearTimer s i with detectionIntervalRef := none }
    | none => s
  let s2 := { s1 with isDetecting := false }
  let s3 :=
    match s2.attachedStream with
    | some sid => { s2 with liveStreams := s2.liveStreams.filter (fun x => x != sid),
                            attachedStream := none }
    | none => s2
  clearState { s3 with isCameraOn := false }

/-- Externally visible events emitted by a handler: a frame capture, a
real-time wait, or a backend request. -/
inductive Event where
  | capture
  | wait (ms : Nat)
  | sendMotion (frame1 frame2 : String)
  | sendDetection (frame : String)
  deriving DecidableEq, Repr

/-- Environment of one handleAnalyzeMotion run: outcomes of the two
captureFrame calls and of the analyzeMotion backend round trip as seen by
the caller (an AnalysisResult on success, a message on failure). -/
structure MotionEnv where
  capture1 : Except String String
  capture2 : Except String String
  backend : Except String AnalysisResult

/-- First failure of a motion run, or the backend result: capture A, then
capture B, then the backend outcome. -/
def motionOutcome (env : MotionEnv) : Except String AnalysisResult :=
  match env.capture1 with
  | Except.error m => Except.error m
  | Except.ok _ =>
    match env.capture2 with
    | Except.error m => Except.error m
    | Except.ok _ => env.backend

/-- Clear the pending transient-message timeout if one is armed
(App.tsx line 105). -/
def clearTransientTimer (s : AppState) : AppState :=
  match s.transientMessageTimeoutRef with
  | some i => clearTimer s i
  | none => s

/-- handleAnalyzeMotion (App.tsx lines 94-114).  Guarded by isCameraOn
(no-op when the camera is off).  Clears state, sets analyzing, captures
frame A, waits 500 ms, captures frame B, sends both frames to the motion
endpoint.  On success stores the result, shows the movement description as
a transient message, replaces any pending self-clear timeout with a fresh
5000 ms one.  On any failure stores `Analysis failed: msg`.  The finally
block always resets analyzing. -/
def handleAnalyzeMotion (s : AppState) (env : MotionEnv) : AppState × List Event :=
  if s.isCameraOn = false then (s, [])
  else
    let s1 := { clearState s with isAnalyzing := true }
    match env.capture1 with
    | Except.error msg =>
        ({ s1 with error := some ("Analysis failed: " ++ msg), isAnalyzing := false },
         [Event.capture])
    | Except.ok f1 =>
      match env.capture2 with
      | Except.error msg =>
          ({ s1 with error := some ("Analysis failed: " ++ msg), isAnalyzing := false },
           [Event.capture, Event.wait 500, Event.capture])
      | Except.ok f2 =>
        match env.backend with
        | Except.error msg =>
            ({ s1 with error := some ("Analysis failed: " ++ msg), isAnalyzing := false },
             [Event.capture, Event.wait 500, Event.capture, Event.sendMotion f1 f2])
        | Except.ok result =>
            let s2 := { s1 with analysisResult := some result,
                                transientMessage := some result.movementDescription }
            let s3 := clearTransientTimer s2
            let armed := setTimer s3 TimerKind.timeout 5000
            let s4 := { armed.1 with transientMessageTimeoutRef := some armed.2 }
            ({ s4 with isAnalyzing := false },
             [Event.capture, Event.wait 500, Event.capture, Event.sendMotion f1 f2])

/-- Effect of the transient-message timeout callback firing
(App.tsx line 106): `setTransientMessage(null)`. -/
def transientTimeoutFire (s : AppState) : AppState :=
  { s with transientMessage := none }

/-- Environment of one runLiveDetection cycle: page visibility, outcome of
the captureFrame call, and outcome of the detectObjectsInFrame round trip as
seen by the caller. -/
structure LiveEnv where
  hidden : Bool
  capture : Except String String
  backend : Except String (List DetectedObject)

/-- First failure of a detection cycle, or the backend result. -/
def liveOutcome (env : LiveEnv) : Except String (List DetectedObject) :=
  match env.capture with
  | Except.error m => Except.error m
  | Except.ok _ => env.backend

/-- runLiveDetection (App.tsx lines 116-128).  Skips the cycle entirely when
the camera is off or the page is hidden.  Otherwise captures one frame and
sends it; on success replaces the detections and clears the error; on any
failure only logs to the console, leaving the state untouched. -/
def runLiveDetection (s : AppState) (env : LiveEnv) : AppState × List Event :=
  if s.isCameraOn = false || env.hidden then (s, [])
  else
    match env.capture with
    | Except.error _ => (s, [Event.capture])
    | Except.ok f =>
      match env.backend with
      | Except.error _ => (s, [Event.capture, Event.sendDetection f])
      | Except.ok results =>
          ({ s with detections := results, error := none },
           [Event.capture, Event.sendDetection f])

/-- toggleLiveDetection (App.tsx lines 131-143).  When detecting: disarms the
interval, resets detecting, clears the detections.  When idle: clears state,
sets detecting, runs one immediate detection cycle and arms a repeating
3000 ms interval. -/
def toggleLiveDetection (s : AppState) (env : LiveEnv) : AppState × List Event :=
  if s.isDetecting then
    let s1 :=
      match s.detectionIntervalRef with
      | some i => clearTimer s i
      | none => s
    ({ s1 with detectionIntervalRef := none, isDetecting := false, detections := [] }, [])
  else
    let s1 := { clearState s with isDetecting := true }
    let run := runLiveDetection s1 env
    let armed := setTimer run.1 TimerKind.interval 3000
    ({ armed.1 with detectionIntervalRef := some armed.2 }, run.2)

/-- Mode buttons of App.tsx lines 181 and 184:
`onClick = setMode(m); clearState()`. -/
def setModeButton (s : AppState) (m : Mode) : AppState :=
  clearState { s with mode := m }

/-- Baseline component state right after mount: camera off, both flags down,
no timers armed, no streams. -/
def initState : AppState where
  mode := Mode.motion
  isCameraOn := false
  isAnalyzing := false
  isDetecting := false
  analysisResult := none
  detections := []
  transientMessage := none
  error := none
  detectionIntervalRef := none
  transientMessageTimeoutRef := none
  armedTimers := []
  nextTimerId := 0
  liveStreams := []
  attachedStream := none
  nextStreamId := 0

/-- A state with an active camera session and nothing else going on. -/
def activeCameraState : AppState :=
  { initState with isCameraOn := true, liveStreams := [0], attachedStream := some 0,
                   nextStreamId := 1, nextTimerId := 1 }

/-- An active session in live mode with the detection interval armed. -/
def activeDetectingState : AppState :=
  { activeCameraState with mode := Mode.live, isDetecting := true,
                           detectionIntervalRef := some 3,
                           armedTimers := [⟨3, TimerKind.interval, 3000⟩],
                           nextTimerId := 4 }

/-- An active session with a transient-message self-clear timeout pending. -/
def activeTransientState : AppState :=
  { activeCameraState with transientMessage := some "rolling right",
                           transientMessageTimeoutRef := some 1,
                           armedTimers := [⟨1, TimerKind.timeout, 5000⟩],
                           nextTimerId := 2 }

/-- A timer reports isInterval exactly when its kind is interval. -/
lemma Timer.isInterval_iff (t : Timer) :
    Timer.isInterval t = true ↔ t.kind = TimerKind.interval := by
  cases h : t.kind <;> simp [Timer.isInterval, h]

/-- A timer reports isTimeout exactly when its kind is timeout. -/
lemma Timer.isTimeout_iff (t : Timer) :
    Timer.isTimeout t = true ↔ t.kind = TimerKind.timeout := by
  cases h : t.kind <;> simp [Timer.isTimeout, h]

/-- stopCamera leaves the armed pool unchanged when no detection interval
is registered. -/
lemma stopCamera_armed_none (s : AppState) (h : s.detectionIntervalRef = none) :
    (stopCamera s).armedTimers = s.armedTimers := by
  obtain ⟨m, cam, ana, det, ares, dets, tmsg, err, dref, tref, timers, ntid, streams, att, nsid⟩ := s
  cases h
  rcases att with _ | sid <;> rfl

/-- stopCamera removes exactly the registered detection interval id from the
armed pool. -/
lemma stopCamera_armed_some (s : AppState) (i : Nat) (h : s.detectionIntervalRef = some i) :
    (stopCamera s).armedTimers = s.armedTimers.filter (fun t => t.id != i) := by
  obtain ⟨m, cam, ana, det, ares, dets, tmsg, err, dref, tref, timers, ntid, streams, att, nsid⟩ := s
  cases h
  rcases att with _ | sid <;> rfl

/-- stopCamera always resets the detecting flag. -/
lemma stopCamera_isDetecting (s : AppState) : (stopCamera s).isDetecting = false := by
  obtain ⟨m, cam, ana, det, ares, dets, tmsg, err, dref, tref, timers, ntid, streams, att, nsid⟩ := s
  rcases dref with _ | i <;> rcases att with _ | sid <;> rfl

/-- stopCamera always clears the transient message. -/
lemma stopCamera_transientMessage (s : AppState) : (stopCamera s).transientMessage = none := by
  obtain ⟨m, cam, ana, det, ares, dets, tmsg, err, dref, tref, timers, ntid, streams, att, nsid⟩ := s
  rcases dref with _ | i <;> rcases att with _ | sid <;> rfl

/-- A late firing of the transient-message timeout callback after stopCamera
does not change the state. -/
lemma stopCamera_fire_noop (s : AppState) :
    transientTimeoutFire (stopCamera s) = stopCamera s := by
  obtain ⟨m, cam, ana, det, ares, dets, tmsg, err, dref, tref, timers, ntid, streams, att, nsid⟩ := s
  rcases dref with _ | i <;> rcases att with _ | sid <;> rfl

/-- C1 counterexample: in a state with an active session and a pending
transient-message self-clear timeout (id 1), stopCamera leaves that timeout
armed and its ref set, so a timer callback of the timeout kind can still fire
after the stop completes — refuting the claim that stopSession disarms both
timer kinds. -/
theorem C1_stop_leaves_transient_timer_armed :
    (stopCamera activeTransientState).armedTimers = [⟨1, TimerKind.timeout, 5000⟩] ∧
    (stopCamera activeTransientState).transientMessageTimeoutRef = some 1 := by
  refine ⟨rfl, rfl⟩

/-- C1 amended: stopCamera disarms the repeating detection interval (assuming
every armed interval timer is the registered one), resets detecting and clears
the transient message; the pending transient-message timeout is not disarmed,
but its late firing (which only re-clears the transient message) leaves the
stopped state unchanged. -/
theorem C1_stop_disarms_polling (s : AppState)
    (hInt : ∀ t ∈ s.armedTimers, t.kind = TimerKind.interval →
      s.detectionIntervalRef = some t.id) :
    (∀ t ∈ (stopCamera s).armedTimers, Timer.isInterval t = false) ∧
    (stopCamera s).isDetecting = false ∧
    (stopCamera s).transientMessage = none ∧
    transientTimeoutFire (stopCamera s) = stopCamera s := by
  refine ⟨?_, stopCamera_isDetecting s, stopCamera_transientMessage s, stopCamera_fire_noop s⟩
  intro t ht
  cases hk : t.kind with
  | timeout => simp [Timer.isInterval, hk]
  | interval =>
    exfalso
    rcases hd : s.detectionIntervalRef with _ | i
    · rw [stopCamera_armed_none s hd] at ht
      have h2 := hInt t ht hk
      rw [hd] at h2
      exact Option.noConfusion h2
    · rw [stopCamera_armed_some s i hd] at ht
      rw [List.mem_filter] at ht
      have h2 := hInt t ht.1 hk
      rw [hd] at h2
      injection h2 with h3
      have h4 := ht.2
      simp [h3] at h4

/-- C1 amended witness: the amended statement instantiated at the concrete
pending-transient state. -/
theorem C1_stop_disarms_polling_witness :
    (∀ t ∈ (stopCamera activeTransientState).armedTimers, Timer.isInterval t = false) ∧
    (stopCamera activeTransientState).isDetecting = false ∧
    (stopCamera activeTransientState).transientMessage = none ∧
    transientTimeoutFire (stopCamera activeTransientState) = stopCamera activeTransientState :=
  C1_stop_disarms_polling activeTransientState (by decide)

/-- C2: switching the mode from live to motion while detecting (the mode
buttons only run setMode plus clearState) leaves the repeating detection
interval armed, its ref registered, and the detecting flag up — detection
ticks keep firing after the mode switch, contradicting the spec. -/
theorem C2_mode_switch_keeps_interval :
    (setModeButton activeDetectingState Mode.motion).mode = Mode.motion ∧
    (setModeButton activeDetectingState Mode.motion).isDetecting = true ∧
    (setModeButton activeDetectingState Mode.motion).armedTimers
      = [⟨3, TimerKind.interval, 3000⟩] ∧
    (setModeButton activeDetectingState Mode.motion).detectionIntervalRef = some 3 := by
  refine ⟨rfl, rfl, rfl, rfl⟩

/-- C3 counterexample: a backend response that parses as JSON but has none of
the required MotionResult fields is returned as-is by analyzeMotion, with no
parse or validation error — refuting the claim that a wrong-shape body fails. -/
theorem C3_wrong_shape_coerced :
    analyzeMotion (Except.ok (ResponseText.json (Json.obj []))) = Except.ok (Json.obj []) := rfl

/-- C3 amended: analyzeMotion surfaces transport failures and bodies that are
not valid JSON as errors carrying a cause string, but any body that parses as
JSON — whatever its shape — is returned unchanged via the unchecked type
assertion; no client-side shape validation occurs. -/
theorem C3_no_shape_validation (m : String) (j : Json) :
    analyzeMotion (Except.error m)
      = Except.error ("Failed to analyze motion with Gemini API: " ++ m) ∧
    analyzeMotion (Except.ok ResponseText.notJson)
      = Except.error
          ("Failed to analyze motion with Gemini API: SyntaxError: unexpected token in JSON") ∧
    analyzeMotion (Except.ok (ResponseText.json j)) = Except.ok j :=
  ⟨rfl, rfl, rfl⟩

/-- C4 counterexample: calling startCamera while a session is already active
(one live stream) acquires a second stream without stopping the first, so two
live streams exist afterwards — refuting at-most-one-active-session for a
bare second start call. -/
theorem C4_double_start_two_streams :
    activeCameraState.isCameraOn = true ∧
    (startCamera activeCameraState true).liveStreams = [0, 1] := by
  refine ⟨rfl, rfl⟩

/-- C4 amended: from any state with no live stream (the only states from
which the UI can reach startCamera, since the start control renders only
while the camera is off), startCamera yields at most one live stream. -/
theorem C4_single_start_single_stream (s : AppState) (mediaOk : Bool)
    (h : s.liveStreams = []) :
    ((startCamera s mediaOk).liveStreams).length ≤ 1 := by
  cases mediaOk <;> simp [startCamera, clearState, h]

/-- C4 amended witness: the amended statement at the initial state with a
granted camera. -/
theorem C4_single_start_single_stream_witness :
    ((startCamera initState true).liveStreams).length ≤ 1 :=
  C4_single_start_single_stream initState true rfl

/-- C5: whenever the camera-on guard passes, handleAnalyzeMotion ends with
the analyzing flag reset to false (the finally block), and on any failure —
capture error or backend error — it stores an error naming the cause while
the previous result stays cleared. -/
theorem C5_analyzing_always_released (s : AppState) (env : MotionEnv)
    (h : s.isCameraOn = true) :
    ((handleAnalyzeMotion s env).1).isAnalyzing = false ∧
    (∀ m, motionOutcome env = Except.error m →
      ((handleAnalyzeMotion s env).1).error = some ("Analysis failed: " ++ m) ∧
      ((handleAnalyzeMotion s env).1).analysisResult = none) := by
  obtain ⟨c1, c2, b⟩ := env
  rcases c1 with m1 | f1 <;> rcases c2 with m2 | f2 <;> rcases b with mb | r <;>
    simp [handleAnalyzeMotion, motionOutcome, clearState, clearTransientTimer,
          setTimer, clearTimer, h]

/-- C5 witness: the released-flag conjunct at a concrete active state with a
failing first capture. -/
theorem C5_analyzing_always_released_witness :
    ((handleAnalyzeMotion activeCameraState
        ⟨Except.error "boom", Except.ok "frameB", Except.error "net"⟩).1).isAnalyzing = false :=
  (C5_analyzing_always_released activeCameraState
    ⟨Except.error "boom", Except.ok "frameB", Except.error "net"⟩ rfl).1

/-- C6: with the camera off, handleAnalyzeMotion is a no-op with no events;
with it on and every step succeeding, the emitted events are exactly capture,
a 500 ms wait, capture, and one motion request with both frames, the result
and its movement description are stored, and the transient self-clear timer
is replaced: afterwards exactly one timeout is armed, the fresh 5000 ms one
(assuming every previously armed timeout was the registered pending one). -/
theorem C6_motion_steps (s : AppState) (env : MotionEnv) (f1 f2 : String)
    (r : AnalysisResult)
    (hc1 : env.capture1 = Except.ok f1) (hc2 : env.capture2 = Except.ok f2)
    (hb : env.backend = Except.ok r)
    (hinv : ∀ t ∈ s.armedTimers, t.kind = TimerKind.timeout →
      s.transientMessageTimeoutRef = some t.id) :
    (s.isCameraOn = false → handleAnalyzeMotion s env = (s, [])) ∧
    (s.isCameraOn = true →
      (handleAnalyzeMotion s env).2
        = [Event.capture, Event.wait 500, Event.capture, Event.sendMotion f1 f2] ∧
      ((handleAnalyzeMotion s env).1).analysisResult = some r ∧
      ((handleAnalyzeMotion s env).1).transientMessage = some r.movementDescription ∧
      ((handleAnalyzeMotion s env).1).transientMessageTimeoutRef = some s.nextTimerId ∧
      ((handleAnalyzeMotion s env).1).armedTimers.filter Timer.isTimeout
        = [⟨s.nextTimerId, TimerKind.timeout, 5000⟩]) := by
  obtain ⟨c1, c2, b⟩ := env
  cases hc1
  cases hc2
  cases hb
  constructor
  · intro hoff
    simp [handleAnalyzeMotion, hoff]
  · intro hon
    rcases htref : s.transientMessageTimeoutRef with _ | oldId
    · have hclean : s.armedTimers.filter Timer.isTimeout = [] := by
        rw [List.filter_eq_nil_iff]
        intro t ht hto
        have h2 := hinv t ht ((Timer.isTimeout_iff t).mp hto)
        rw [htref] at h2
        exact Option.noConfusion h2
      refine ⟨?_, ?_, ?_, ?_, ?_⟩ <;>
        simp [handleAnalyzeMotion, hon, clearState, clearTransientTimer, htref,
              setTimer, clearTimer, List.filter_append, hclean, Timer.isTimeout]
    · have hclean : (s.armedTimers.filter (fun t => t.id != oldId)).filter
          Timer.isTimeout = [] := by
        rw [List.filter_eq_nil_iff]
        intro t ht hto
        rw [List.mem_filter] at ht
        have h2 := hinv t ht.1 ((Timer.isTimeout_iff t).mp hto)
        rw [htref] at h2
        injection h2 with h3
        have h4 := ht.2
        simp [h3] at h4
      refine ⟨?_, ?_, ?_, ?_, ?_⟩ <;>
        simp [handleAnalyzeMotion, hon, clearState, clearTransientTimer, htref,
              setTimer, clearTimer, List.filter_append, hclean, Timer.isTimeout]

/-- Concrete backend result used by the C6 witness. -/
def motionResultW : AnalysisResult := ⟨"red ball", "rolling right", 92 / 100⟩

/-- Concrete all-success environment used by the C6 witness. -/
def envC6 : MotionEnv := ⟨Except.ok "frameA", Except.ok "frameB", Except.ok motionResultW⟩

/-- C6 witness: the event order conjunct at a concrete active state with an
all-success environment. -/
theorem C6_motion_steps_witness :
    (handleAnalyzeMotion activeCameraState envC6).2
      = [Event.capture, Event.wait 500, Event.capture,
         Event.sendMotion "frameA" "frameB"] :=
  (((C6_motion_steps activeCameraState envC6 "frameA" "frameB" motionResultW
      rfl rfl rfl (by decide)).2) rfl).1

/-- C7: with the camera on and the page visible, a detection cycle that fails
(capture error or backend error) leaves the whole state unchanged — the
existing detections stay, no error is stored, the armed timers and interval
ref are untouched — while a successful cycle replaces the detections, clears
any stale error, and still leaves the timers untouched. -/
theorem C7_live_failure_isolation (s : AppState) (env : LiveEnv)
    (hc : s.isCameraOn = true) (hh : env.hidden = false) :
    ((∃ m, liveOutcome env = Except.error m) → (runLiveDetection s env).1 = s) ∧
    (∀ results, liveOutcome env = Except.ok results →
      ((runLiveDetection s env).1).detections = results ∧
      ((runLiveDetection s env).1).error = none ∧
      ((runLiveDetection s env).1).armedTimers = s.armedTimers ∧
      ((runLiveDetection s env).1).detectionIntervalRef = s.detectionIntervalRef) := by
  obtain ⟨hid, cap, b⟩ := env
  cases hh
  rcases cap with m | f <;> rcases b with mb | res <;>
    simp [runLiveDetection, liveOutcome, hc]

/-- Concrete failing-poll environment used by the C7 witness. -/
def envC7 : LiveEnv := ⟨false, Except.ok "frame", Except.error "network"⟩

/-- C7 witness: a failing poll at a concrete detecting state changes nothing. -/
theorem C7_live_failure_isolation_witness :
    (runLiveDetection activeDetectingState envC7).1 = activeDetectingState :=
  (C7_live_failure_isolation activeDetectingState envC7 rfl rfl).1 ⟨"network", rfl⟩

/-- C8: whenever the camera is off or the page is hidden, a detection cycle
is skipped entirely: the state is returned unchanged and no event — no frame
capture, no backend request — is emitted. -/
theorem C8_cycle_skip_guard (s : AppState) (env : LiveEnv)
    (h : s.isCameraOn = false ∨ env.hidden = true) :
    runLiveDetection s env = (s, []) := by
  rcases h with h | h <;> simp [runLiveDetection, h]

/-- C8 witness: the guard at the initial (camera off) state with a would-be
successful environment. -/
theorem C8_cycle_skip_guard_witness :
    runLiveDetection initState ⟨false, Except.ok "frame", Except.ok []⟩
      = (initState, []) :=
  C8_cycle_skip_guard initState ⟨false, Except.ok "frame", Except.ok []⟩ (Or.inl rfl)

/-- C9: for every confidence value in the unit interval, the percentage
rendered by the App (Math.round of confidence times 100) equals
round(confidence times 100) and lies between 0 and 100. -/
theorem C9_confidence_display (c : ℚ) (h0 : 0 ≤ c) (h1 : c ≤ 1) :
    displayedConfidencePct c = round (c * 100) ∧
    0 ≤ displayedConfidencePct c ∧ displayedConfidencePct c ≤ 100 := by
  refine ⟨by rw [round_eq]; rfl, ?_, ?_⟩
  · unfold displayedConfidencePct jsMathRound
    rw [Int.le_floor]
    push_cast
    linarith
  · unfold displayedConfidencePct jsMathRound
    have hlt : (⌊c * 100 + 1 / 2⌋ : ℤ) < 101 := by
      rw [Int.floor_lt]
      push_cast
      linarith
    omega

/-- C9 witness: the display property at confidence 92 percent. -/
theorem C9_confidence_display_witness :
    displayedConfidencePct (92 / 100) = round ((92 / 100 : ℚ) * 100) ∧
    0 ≤ displayedConfidencePct (92 / 100) ∧ displayedConfidencePct (92 / 100) ≤ 100 :=
  C9_confidence_display (92 / 100) (by norm_num) (by norm_num)

/-- C10: for every JSON body whose detections property reads as null or as
undefined (absent), detectObjectsInFrame returns the empty array without an
error, and the result is identical to the one for a body carrying an
explicit empty detections array. -/
theorem C10_missing_detections_empty (j : Json)
    (h : jsGetField j "detections" = Except.ok Json.null ∨
         jsGetField j "detections" = Except.ok Json.undef) :
    detectObjectsInFrame (Except.ok (ResponseText.json j)) = Except.ok (Json.arr []) ∧
    detectObjectsInFrame (Except.ok (ResponseText.json j)) =
      detectObjectsInFrame (Except.ok (ResponseText.json
        (Json.obj [("detections", Json.arr [])]))) := by
  have hmain : detectObjectsInFrame (Except.ok (ResponseText.json j))
      = Except.ok (Json.arr []) := by
    rcases h with h | h <;> simp [detectObjectsInFrame, jsonParse, h, jsTruthy]
  exact ⟨hmain, by rw [hmain]; rfl⟩

/-- C10 witness: a JSON object with no detections property yields the empty
detection set. -/
theorem C10_missing_detections_empty_witness :
    detectObjectsInFrame (Except.ok (ResponseText.json (Json.obj [])))
      = Except.ok (Json.arr []) :=
  (C10_missing_detections_empty (Json.obj []) (Or.inr rfl)).1

end VisualAnalyzer
